import Mathlib

set_option maxRecDepth 8000

/-!
Verification of the skynerd-assistant monitor/notification core.

The Python source is embedded shallowly:

* `state.py` (`StateDB`) — the SQLite tables become in-memory values:
  the `notification_log` table is a `List LogEntry` (with its UNIQUE
  constraint on `notification_id` modelled by `insertNotificationRow`
  returning an error on a duplicate), the `session_state` and
  `sync_state` tables are small records or association lists, and
  `local_reminders` is a `List LocalReminder` whose `due_at` column
  holds the exact TEXT string the Python code inserts.
* each monitor's `check` (`monitors/*.py`) becomes a pure function from
  the fetched remote payload and the previous local state to the new
  local state, the list of emitted notifications (the calls made to the
  notifier callback) and the returned summary.
* dictionary fields read with `.get` are `Option` values (or plain
  strings when the source supplies a `""` default); clock instants are
  integer epoch seconds; timestamps stored in SQLite are kept as the
  very strings SQLite compares.

Failure injection: where a claim concerns error paths, the embedding
takes an environment of success flags (`EmailEnv`, `CheckOutcome`)
selecting which of the underlying I/O operations raises; every
operation either fully applies or raises, matching the per-statement
commits in `state.py`.
-/

/-- Row of the `notification_log` table (state.py `_init_schema`):
`notification_id` carries a UNIQUE constraint. -/
structure LogEntry where
  notification_id : String
  notification_type : String
  title : String
  message : String
  spoken : Bool
deriving DecidableEq

/-- Number of `notification_log` rows with the given `notification_id`. -/
def countById (log : List LogEntry) (nid : String) : Nat :=
  log.countP (fun e => e.notification_id == nid)

/-- Raw SQL INSERT into `notification_log`: raises `IntegrityError`
(modelled as `Except.error`) when a row with the same
`notification_id` already exists, otherwise appends the row. -/
def insertNotificationRow (log : List LogEntry) (nid ntype title msg : String)
    (spoken : Bool) : Except String (List LogEntry) :=
  if log.any (fun e => e.notification_id == nid) then
    .error "UNIQUE constraint failed: notification_log.notification_id"
  else
    .ok (log ++ [⟨nid, ntype, title, msg, spoken⟩])

/-- StateDB.log_notification (state.py lines 125-146): the INSERT is
wrapped in try/except; an `IntegrityError` (duplicate id) is swallowed
and the call returns normally with the log unchanged. -/
def StateDB.log_notification (log : List LogEntry) (nid ntype title msg : String)
    (spoken : Bool) : List LogEntry :=
  match insertNotificationRow log nid ntype title msg spoken with
  | .ok newLog => newLog
  | .error _ => log

/-- StateDB.was_notification_delivered (state.py lines 148-154):
existence check on `notification_log`. -/
def StateDB.was_notification_delivered (log : List LogEntry) (nid : String) : Bool :=
  log.any (fun e => e.notification_id == nid)

/-- Notification emitted through BaseMonitor.notify (base.py lines
47-52): the (title, message, priority) triple handed to the
`on_notification` callback. -/
structure Note where
  title : String
  message : String
  priority : String
deriving DecidableEq

/-- Pending voice notification as fetched by the Voice Monitor
(monitors/voice.py). The `spoken_message` and `full_message` fields are
read with `.get(key, "")`, so the empty string stands for an absent
field; `id` is the string the code builds with `str(...)`. -/
structure VoiceNotification where
  id : String
  notification_type : String
  title : String
  spoken_message : String
  full_message : String
deriving DecidableEq

/-- Local side effects accumulated during one Voice Monitor check:
the notification log, the arguments of the `on_speak` callback calls,
the ids for which a server-side mark-delivered call was attempted, and
`played_count`. -/
structure VoiceState where
  log : List LogEntry
  spoken : List String
  delivered : List String
  played_count : Nat
deriving DecidableEq

/-- Effective spoken text (voice.py lines 44-46): the `spoken_message`
field, falling back to `full_message` when the former is empty/absent. -/
def voiceMessage (n : VoiceNotification) : String :=
  if n.spoken_message == "" then n.full_message else n.spoken_message

/-- Body of the per-notification loop of VoiceMonitor.check (voice.py
lines 36-67): skip when already delivered locally; skip silently when
the effective message is empty; otherwise speak (when a callback is
configured), log locally, and attempt the server-side mark-delivered
call (whose own failure is swallowed, so the attempt is recorded). -/
def voiceStep (hasOnSpeak : Bool) (st : VoiceState) (n : VoiceNotification) :
    VoiceState :=
  if StateDB.was_notification_delivered st.log n.id then st
  else
    let msg := voiceMessage n
    if msg == "" then st
    else
      let st1 := if hasOnSpeak then
          { st with spoken := st.spoken ++ [msg], played_count := st.played_count + 1 }
        else st
      { st1 with
        log := StateDB.log_notification st1.log n.id n.notification_type n.title msg true,
        delivered := st1.delivered ++ [n.id] }

/-- Result of VoiceMonitor.check: final local state plus the returned
`pending_count` (the `played_count` of the summary lives in the state). -/
structure VoiceCheckResult where
  state : VoiceState
  pending_count : Nat
deriving DecidableEq

/-- VoiceMonitor.check (voice.py lines 27-76) on the successfully
fetched list of pending notifications. -/
def VoiceMonitor.check (hasOnSpeak : Bool) (log0 : List LogEntry)
    (notifications : List VoiceNotification) : VoiceCheckResult :=
  { state := notifications.foldl (voiceStep hasOnSpeak) ⟨log0, [], [], 0⟩,
    pending_count := notifications.length }

/-- Next calendar event as read by CalendarMonitor.check
(monitors/calendar.py): `id` and `title` are `.get` reads with no
default, and `start_time`, when present, is the parsed datetime
represented by its epoch-second value. -/
structure CalendarEvent where
  id : Option String
  title : Option String
  start_time : Option Int
deriving DecidableEq

/-- Minutes until the event start (calendar.py line 41):
`(start_time - now).total_seconds() / 60`, an exact rational. -/
def minutesUntil (now start : Int) : ℚ :=
  ((start - now : Int) : ℚ) / 60

/-- Python `int()` on a rational: truncation toward zero. -/
def pyInt (q : ℚ) : ℤ :=
  if q < 0 then ⌈q⌉ else ⌊q⌋

/-- Result of CalendarMonitor.check: the (possibly updated)
`calendar_last_notified` session value, the emitted notifications and
the returned summary fields. -/
structure CalendarOutcome where
  last_notified : Option String
  notes : List Note
  events_today : Int
  next_event_title : Option String
deriving DecidableEq

/-- CalendarMonitor.check (calendar.py lines 25-64): notify when the
next event starts within the 15-minute window (`0 < minutes_until ≤
15`) and its id differs from the stored `calendar_last_notified`
value, then record that id; otherwise leave the stored value alone. -/
def CalendarMonitor.check (now : Int) (last : Option String) (today : Int)
    (next_event : Option CalendarEvent) : CalendarOutcome :=
  match next_event with
  | none => ⟨last, [], today, none⟩
  | some e =>
    match e.start_time with
    | none => ⟨last, [], today, e.title⟩
    | some start =>
      let mu := minutesUntil now start
      if 0 < mu ∧ mu ≤ 15 ∧ last ≠ e.id then
        ⟨e.id,
         [⟨"Meeting in " ++ toString (pyInt mu) ++ " minutes",
           e.title.getD "Upcoming meeting", "high"⟩],
         today, e.title⟩
      else ⟨last, [], today, e.title⟩

/-- Unread email as fetched by EmailMonitor.check (monitors/email.py):
`id` is always present; the other fields are `.get` reads whose `none`
stands for an absent key (for `priority_level` also for a JSON null,
which the code's `or "medium"` treats the same way). -/
structure Email where
  id : String
  subject : Option String
  from_name : Option String
  from_email : Option String
  priority_level : Option String
deriving DecidableEq

/-- Sender display name (email.py line 51):
`email.get("from_name", email.get("from_email", "Unknown"))`. -/
def senderName (e : Email) : String :=
  match e.from_name with
  | some s => s
  | none => e.from_email.getD "Unknown"

/-- Subject with the `.get` default (email.py line 50). -/
def emailSubject (e : Email) : String :=
  e.subject.getD "No subject"

/-- Effective notification priority (email.py lines 52 and 57):
`email.get("priority_level", "medium")` followed by `or "medium"`,
so an absent, null or empty value all become "medium". -/
def emailPriority (e : Email) : String :=
  match e.priority_level with
  | none => "medium"
  | some p => if p = "" then "medium" else p

/-- Notification built for one new high-priority email (email.py lines
54-58). -/
def noteOfEmail (e : Email) : Note :=
  ⟨"New email from " ++ senderName e, (emailSubject e).take 100, emailPriority e⟩

/-- Email Monitor slice of `session_state`: the two keys
`email_unread_count` and `email_high_priority`; `none` is a missing
row. -/
structure EmailSession where
  email_unread_count : Option Int
  email_high_priority : Option (List String)
deriving DecidableEq

/-- Failure environment for one email check: which of the underlying
operations succeed. `notifyFailAt = some k` makes the k-th notifier
call raise (caught by the check's outer try/except). -/
structure EmailEnv where
  fetchOk : Bool
  write1Ok : Bool
  write2Ok : Bool
  notifyFailAt : Option Nat
deriving DecidableEq

/-- Environment in which every operation succeeds. -/
def EmailEnv.allOk : EmailEnv := ⟨true, true, true, none⟩

/-- Value returned by EmailMonitor.check: the summary dict on success,
or the `{"error": ...}` dict produced by the outer except clause. -/
inductive EmailResult
| summary (unread_count : Int) (high_priority_count : Nat) (new_high_priority : Nat)
| errorResult (msg : String)
deriving DecidableEq

/-- Whether the check returned an `{"error": ...}` dict. -/
def EmailResult.isErr : EmailResult → Bool
| .errorResult _ => true
| _ => false

/-- Outcome of one email check: final session slice, emitted
notifications, returned value. -/
structure EmailOutcome where
  sess : EmailSession
  notes : List Note
  result : EmailResult
deriving DecidableEq

/-- Set of ids of the fetched emails (`current_ids`, email.py line 37),
as a duplicate-free list. -/
def currentEmailIds (emails : List Email) : List String :=
  (emails.map (·.id)).dedup

/-- EmailMonitor.check (email.py lines 24-68) with failure injection.
Order of effects follows the source: fetch, read previous session
values (`or 0` / `or []` defaults), diff, write `email_unread_count`,
write `email_high_priority` (two separate upserts, each committed on
its own), then notify for the first 3 new high-priority emails. Any
raise is caught by the outer try/except, which returns the error
result and keeps whatever state changes already happened. -/
def emailCheckFallible (env : EmailEnv) (sess : EmailSession)
    (emails : List Email) (total_count : Int) : EmailOutcome :=
  if !env.fetchOk then ⟨sess, [], .errorResult "fetch failed"⟩
  else
    let prev_ids := sess.email_high_priority.getD []
    let current_ids := currentEmailIds emails
    let new_ids := current_ids.filter (fun i => !prev_ids.contains i)
    if !env.write1Ok then ⟨sess, [], .errorResult "storage failed"⟩
    else
      let sess1 : EmailSession := ⟨some total_count, sess.email_high_priority⟩
      if !env.write2Ok then ⟨sess1, [], .errorResult "storage failed"⟩
      else
        let sess2 : EmailSession := ⟨some total_count, some current_ids⟩
        let toNotify := (emails.filter (fun e => new_ids.contains e.id)).take 3
        match env.notifyFailAt with
        | some k =>
          if k < toNotify.length then
            ⟨sess2, (toNotify.take k).map noteOfEmail, .errorResult "notify failed"⟩
          else
            ⟨sess2, toNotify.map noteOfEmail,
             .summary total_count emails.length new_ids.length⟩
        | none =>
          ⟨sess2, toNotify.map noteOfEmail,
           .summary total_count emails.length new_ids.length⟩

/-- EmailMonitor.check on its success path (all operations succeed). -/
def EmailMonitor.check (sess : EmailSession) (emails : List Email)
    (total_count : Int) : EmailOutcome :=
  emailCheckFallible EmailEnv.allOk sess emails total_count

/-- Task as fetched by TaskMonitor.check (monitors/tasks.py): `id` is
the string the code builds with `str(...)`; `title` and `priority` are
`.get` reads with a default applied only when absent; `is_overdue` is
the truthiness of `t.get("is_overdue")`. -/
structure TaskItem where
  id : String
  title : Option String
  priority : Option String
  is_overdue : Bool
deriving DecidableEq

/-- Notification built for one newly overdue task (tasks.py lines
51-56). -/
def noteOfTask (t : TaskItem) : Note :=
  ⟨"Task overdue", t.title.getD "Unknown task", t.priority.getD "high"⟩

/-- Outcome of one task check: the new `task_overdue_ids` session
value, emitted notifications and the returned summary fields. -/
structure TaskOutcome where
  task_overdue_ids : List String
  notes : List Note
  total_upcoming : Int
  overdue_count : Nat
  due_today_count : Nat
  new_overdue : Nat
deriving DecidableEq

/-- TaskMonitor.check (tasks.py lines 25-67): split fetched tasks by
`is_overdue`, diff overdue ids against the persisted
`task_overdue_ids` set, replace that set wholesale with the current
overdue ids, and notify for the first 3 newly overdue tasks. -/
def TaskMonitor.check (prev_overdue_ids : List String) (tasks : List TaskItem)
    (total_count : Int) : TaskOutcome :=
  let overdue_tasks := tasks.filter (·.is_overdue)
  let due_today_tasks := tasks.filter (fun t => !t.is_overdue)
  let current_overdue_ids := (overdue_tasks.map (·.id)).dedup
  let new_overdue_ids := current_overdue_ids.filter
    (fun i => !prev_overdue_ids.contains i)
  let new_overdue := overdue_tasks.filter (fun t => new_overdue_ids.contains t.id)
  ⟨current_overdue_ids, (new_overdue.take 3).map noteOfTask, total_count,
   overdue_tasks.length, due_today_tasks.length, new_overdue_ids.length⟩

/-- Calendar date-time with second precision, used to build the exact
timestamp strings the Python code and SQLite exchange. -/
structure DateTime where
  year : Nat
  month : Nat
  day : Nat
  hour : Nat
  minute : Nat
  second : Nat
deriving DecidableEq

/-- Two-digit zero padding of a field value. -/
def pad2 (n : Nat) : String :=
  if n < 10 then "0" ++ toString n else toString n

/-- Python `datetime.isoformat()` (seconds precision): the string
`add_local_reminder` stores in the `due_at` column — note the `T`
separating date and time. -/
def DateTime.isoformat (d : DateTime) : String :=
  toString d.year ++ "-" ++ pad2 d.month ++ "-" ++ pad2 d.day ++ "T"
    ++ pad2 d.hour ++ ":" ++ pad2 d.minute ++ ":" ++ pad2 d.second

/-- SQLite `datetime('now')`: the string the `get_due_reminders` query
compares `due_at` against — note the space separating date and time. -/
def DateTime.sqliteText (d : DateTime) : String :=
  toString d.year ++ "-" ++ pad2 d.month ++ "-" ++ pad2 d.day ++ " "
    ++ pad2 d.hour ++ ":" ++ pad2 d.minute ++ ":" ++ pad2 d.second

/-- Chronological order on date-times (field-lexicographic). -/
def DateTime.leChron (a b : DateTime) : Bool :=
  ((((a.year * 13 + a.month) * 32 + a.day) * 24 + a.hour) * 60 + a.minute) * 60
      + a.second
    ≤ ((((b.year * 13 + b.month) * 32 + b.day) * 24 + b.hour) * 60 + b.minute) * 60
      + b.second

/-- Row of the `local_reminders` table (state.py `_init_schema`).
`due_at` holds the TEXT value actually stored: the Python
`isoformat()` string that `add_local_reminder` binds. -/
structure LocalReminder where
  id : Nat
  server_id : Option String
  title : String
  description : String
  due_at : String
  priority : String
  is_completed : Bool
  notification_sent : Bool
deriving DecidableEq

/-- StateDB.add_local_reminder (state.py lines 157-174): inserts a row
with `due_at.isoformat()` bound into the `due_at` column and the two
flags defaulted to 0. -/
def StateDB.add_local_reminder (rows : List LocalReminder) (newId : Nat)
    (title : String) (due_at : DateTime) (description : String)
    (priority : String) (server_id : Option String) : List LocalReminder :=
  rows ++ [⟨newId, server_id, title, description, due_at.isoformat, priority,
    false, false⟩]

/-- SQLite BINARY collation on TEXT values: byte-wise `memcmp`,
i.e. lexicographic comparison of code points (the strings involved
here are ASCII, where bytes and code points agree). -/
def memcmpLe : List Char → List Char → Bool
  | [], _ => true
  | _ :: _, [] => false
  | a :: as, b :: bs =>
    if a.toNat < b.toNat then true
    else if b.toNat < a.toNat then false
    else memcmpLe as bs

/-- TEXT comparison `a <= b` as SQLite evaluates it for the
`due_at <= datetime('now')` predicate. -/
def sqliteLeText (a b : String) : Bool :=
  memcmpLe a.data b.data

/-- Insertion into a list kept sorted by the `due_at` TEXT column. -/
def insertByDue (r : LocalReminder) : List LocalReminder → List LocalReminder
  | [] => [r]
  | x :: xs =>
    if sqliteLeText r.due_at x.due_at then r :: x :: xs else x :: insertByDue r xs

/-- Stable sort by the `due_at` TEXT column (the `ORDER BY due_at`). -/
def sortByDue : List LocalReminder → List LocalReminder
  | [] => []
  | x :: xs => insertByDue x (sortByDue xs)

/-- StateDB.get_due_reminders (state.py lines 176-188): the SQL filter
`is_completed = 0 AND notification_sent = 0 AND due_at <=
datetime('now')` with `ORDER BY due_at`. The `due_at` column (NUMERIC
affinity, holding non-numeric TEXT) and `datetime('now')` are both
TEXT, so SQLite compares them under BINARY collation; `nowText` is the
`datetime('now')` string. -/
def StateDB.get_due_reminders (rows : List LocalReminder) (nowText : String) :
    List LocalReminder :=
  sortByDue (rows.filter (fun r =>
    !r.is_completed && !r.notification_sent && sqliteLeText r.due_at nowText))

/-- StateDB.mark_reminder_notified (state.py lines 190-196): UPDATE
setting `notification_sent = 1` on the matching id. -/
def StateDB.mark_reminder_notified (rows : List LocalReminder) (rid : Nat) :
    List LocalReminder :=
  rows.map (fun r => if r.id = rid then { r with notification_sent := true } else r)

/-- Upsert into the `sync_state` table (state.py `set_sync_state`,
lines 97-109): replace the value under an existing key, else append
the row. -/
def StateDB.set_sync_state : List (String × String) → String → String →
    List (String × String)
  | [], key, value => [(key, value)]
  | p :: rest, key, value =>
    if p.1 == key then (key, value) :: rest
    else p :: StateDB.set_sync_state rest key value

/-- Lookup in the `sync_state` table (state.py `get_sync_state`). -/
def StateDB.get_sync_state (sync : List (String × String)) (key : String) :
    Option String :=
  (sync.find? (fun p => p.1 == key)).map (·.2)

/-- StateDB.set_last_sync (state.py lines 118-122): store the current
timestamp under `last_sync_<monitor>`. -/
def StateDB.set_last_sync (sync : List (String × String))
    (monitor nowIso : String) : List (String × String) :=
  StateDB.set_sync_state sync ("last_sync_" ++ monitor) nowIso

/-- Value a monitor's `check()` coroutine produces as seen by
BaseMonitor.run: either the returned dict — a normal summary or the
`{"error": ...}` dict every concrete monitor returns from its own
except clause — represented by its error flag. -/
inductive CheckResult
| okResult
| errorResult (msg : String)
deriving DecidableEq

/-- How a `check()` call ends at the `await` in BaseMonitor.run: it
either returns a `CheckResult` or raises past the monitor boundary. -/
inductive CheckOutcome
| raised (msg : String)
| returned (r : CheckResult)
deriving DecidableEq

/-- BaseMonitor.run (base.py lines 54-62): call `check()`; when it
returns (with any dict, error results included) write
`last_sync_<name>`; when it raises, catch, skip the write and return
an `{"error": ...}` dict. -/
def BaseMonitor.run (sync : List (String × String)) (name nowIso : String)
    (outcome : CheckOutcome) : List (String × String) × CheckResult :=
  match outcome with
  | .raised msg => (sync, .errorResult msg)
  | .returned r => (StateDB.set_last_sync sync name nowIso, r)

theorem was_delivered_iff_countById_pos (log : List LogEntry) (nid : String) :
    StateDB.was_notification_delivered log nid = true ↔ 0 < countById log nid := by
  simp [StateDB.was_notification_delivered, countById, List.countP_pos_iff,
    List.any_eq_true]

theorem log_notification_countById (log : List LogEntry)
    (nid ntype title msg : String) (spoken : Bool) :
    countById (StateDB.log_notification log nid ntype title msg spoken) nid
      = max (countById log nid) 1 := by
  unfold StateDB.log_notification insertNotificationRow
  by_cases h : log.any (fun e => e.notification_id == nid) = true
  · have hpos : 0 < countById log nid :=
      (was_delivered_iff_countById_pos log nid).mp h
    simp [h]
    omega
  · have hzero : countById log nid = 0 := by
      by_contra hne
      exact h ((was_delivered_iff_countById_pos log nid).mpr (Nat.pos_of_ne_zero hne))
    simp only [h]
    simp [countById, List.countP_append, List.countP_cons]
    simp only [countById] at hzero
    omega

theorem log_notification_delivered_after (log : List LogEntry)
    (nid ntype title msg : String) (spoken : Bool) :
    StateDB.was_notification_delivered
      (StateDB.log_notification log nid ntype title msg spoken) nid = true := by
  rw [was_delivered_iff_countById_pos, log_notification_countById]
  omega

theorem log_notification_noop_of_delivered (log : List LogEntry)
    (nid ntype title msg : String) (spoken : Bool)
    (h : StateDB.was_notification_delivered log nid = true) :
    StateDB.log_notification log nid ntype title msg spoken = log := by
  unfold StateDB.log_notification insertNotificationRow
  simp [StateDB.was_notification_delivered] at h
  simp [List.any_eq_true, h]

/-- C1: logging a notification is idempotent in `notification_id`.
Provided the UNIQUE constraint held before (at most one row for the
id), calling `log_notification` twice — with any types, titles and
messages — leaves exactly one `notification_log` row for that id, and
the second call returns successfully with the log unchanged (the
`IntegrityError` is swallowed), never raising. -/
theorem C1_log_notification_idempotent (log : List LogEntry) (nid : String)
    (ty1 t1 m1 : String) (s1 : Bool) (ty2 t2 m2 : String) (s2 : Bool)
    (h : countById log nid ≤ 1) :
    countById (StateDB.log_notification
        (StateDB.log_notification log nid ty1 t1 m1 s1) nid ty2 t2 m2 s2) nid = 1
    ∧ StateDB.log_notification
        (StateDB.log_notification log nid ty1 t1 m1 s1) nid ty2 t2 m2 s2
      = StateDB.log_notification log nid ty1 t1 m1 s1 := by
  have hsecond := log_notification_noop_of_delivered
    (StateDB.log_notification log nid ty1 t1 m1 s1) nid ty2 t2 m2 s2
    (log_notification_delivered_after log nid ty1 t1 m1 s1)
  refine ⟨?_, hsecond⟩
  rw [hsecond, log_notification_countById]
  omega

/-- C1 witness: concrete double logging of id "n1" on an empty log. -/
theorem C1_witness :
    countById [] "n1" ≤ 1
    ∧ (countById (StateDB.log_notification
          (StateDB.log_notification [] "n1" "voice" "Title" "Msg" true)
          "n1" "voice" "Other" "Msg2" false) "n1" = 1
      ∧ StateDB.log_notification
          (StateDB.log_notification [] "n1" "voice" "Title" "Msg" true)
          "n1" "voice" "Other" "Msg2" false
        = StateDB.log_notification [] "n1" "voice" "Title" "Msg" true) :=
  ⟨by decide,
   C1_log_notification_idempotent [] "n1" "voice" "Title" "Msg" true
     "voice" "Other" "Msg2" false (by decide)⟩

theorem log_notification_preserves_other (log : List LogEntry)
    (nid ntype title msg : String) (spoken : Bool) (x : String) (hx : nid ≠ x) :
    StateDB.was_notification_delivered
        (StateDB.log_notification log nid ntype title msg spoken) x
      = StateDB.was_notification_delivered log x := by
  unfold StateDB.log_notification insertNotificationRow
  by_cases h : log.any (fun e => e.notification_id == nid) = true
  · simp [h]
  · simp only [h, Bool.false_eq_true, if_false]
    simp [StateDB.was_notification_delivered, hx]

theorem voiceStep_log_preserves (b : Bool) (st : VoiceState)
    (n : VoiceNotification) (x : String) (hx : n.id ≠ x) :
    StateDB.was_notification_delivered (voiceStep b st n).log x
      = StateDB.was_notification_delivered st.log x := by
  unfold voiceStep
  by_cases h1 : StateDB.was_notification_delivered st.log n.id
  · simp [h1]
  · simp only [h1, Bool.false_eq_true, if_false]
    by_cases h2 : voiceMessage n == ""
    · simp [h2]
    · simp only [h2, Bool.false_eq_true, if_false]
      cases b <;>
        simp [log_notification_preserves_other _ n.id n.notification_type n.title
          (voiceMessage n) true x hx]

theorem voiceFold_log_preserves (b : Bool) (l : List VoiceNotification)
    (st : VoiceState) (x : String) (hl : ∀ m ∈ l, m.id ≠ x) :
    StateDB.was_notification_delivered (List.foldl (voiceStep b) st l).log x
      = StateDB.was_notification_delivered st.log x := by
  induction l generalizing st with
  | nil => rfl
  | cons m rest ih =>
    rw [List.foldl_cons, ih _ (fun a ha => hl a (List.mem_cons_of_mem m ha)),
      voiceStep_log_preserves b st m x (hl m (List.mem_cons_self m rest))]

/-- C2 counterexample: a pending notification (id "7") absent from the
log but with empty `spoken_message` and `full_message` refutes the
claim as stated: the check invokes no speech callback (in particular
not with the full-message field) and writes no log entry. -/
theorem C2_counterexample :
    StateDB.was_notification_delivered [] "7" = false
    ∧ (VoiceMonitor.check true [] [⟨"7", "reminder", "Call", "", ""⟩]).state.spoken = []
    ∧ (VoiceMonitor.check true [] [⟨"7", "reminder", "Call", "", ""⟩]).state.log = []
    ∧ (VoiceMonitor.check true [] [⟨"7", "reminder", "Call", "", ""⟩]).state.spoken
        ≠ [""] := by
  decide

/-- C2 (amended): in a Voice Monitor check with a speech callback
configured, a fetched pending notification already satisfying
`was_notification_delivered` is skipped untouched; one not yet in the
log **whose spoken-text or full-message field is nonempty** has the
callback invoked with its spoken-text field (falling back to the
full-message field when spoken text is empty/absent) and is then
logged via `log_notification`; the check processes each fetched
notification exactly once, in order, by this step function. -/
theorem C2_voice_delivery (st : VoiceState) (n : VoiceNotification)
    (hnew : StateDB.was_notification_delivered st.log n.id = false)
    (hmsg : ¬(n.spoken_message = "" ∧ n.full_message = "")) :
    (voiceStep true st n).spoken
        = st.spoken ++ [if n.spoken_message = "" then n.full_message
                        else n.spoken_message]
    ∧ (voiceStep true st n).log
        = StateDB.log_notification st.log n.id n.notification_type n.title
            (voiceMessage n) true
    ∧ (voiceStep true st n).played_count = st.played_count + 1
    ∧ (∀ st2 : VoiceState, StateDB.was_notification_delivered st2.log n.id = true →
        voiceStep true st2 n = st2)
    ∧ (∀ (b : Bool) (log0 : List LogEntry) (pre suf : List VoiceNotification),
        (VoiceMonitor.check b log0 (pre ++ n :: suf)).state
          = List.foldl (voiceStep b)
              (voiceStep b (List.foldl (voiceStep b) ⟨log0, [], [], 0⟩ pre) n) suf) := by
  have hm : voiceMessage n ≠ "" := by
    by_cases hs : n.spoken_message = ""
    · have hf : n.full_message ≠ "" := fun h => hmsg ⟨hs, h⟩
      simp [voiceMessage, hs, hf]
    · simp [voiceMessage, hs]
  have hm' : (voiceMessage n == "") = false := by
    simp [hm]
  refine ⟨?_, ?_, ?_, ?_, ?_⟩
  · have h1 : (voiceStep true st n).spoken = st.spoken ++ [voiceMessage n] := by
      simp [voiceStep, hnew, hm']
    rw [h1]
    by_cases hs : n.spoken_message = "" <;> simp [voiceMessage, hs]
  · simp [voiceStep, hnew, hm']
  · simp [voiceStep, hnew, hm']
  · intro st2 h2
    simp [voiceStep, h2]
  · intro b log0 pre suf
    simp [VoiceMonitor.check, List.foldl_append]

/-- C2 witness: notification "5" with empty spoken text and nonempty
full message, on an empty log: the callback receives the full message. -/
theorem C2_witness :
    StateDB.was_notification_delivered
      (VoiceState.mk [] [] [] 0).log "5" = false
    ∧ ¬((VoiceNotification.mk "5" "reminder" "Water" "" "Drink").spoken_message = ""
        ∧ (VoiceNotification.mk "5" "reminder" "Water" "" "Drink").full_message = "")
    ∧ (voiceStep true (VoiceState.mk [] [] [] 0)
          (VoiceNotification.mk "5" "reminder" "Water" "" "Drink")).spoken
        = ["Drink"] :=
  ⟨by decide, by decide,
   (C2_voice_delivery (VoiceState.mk [] [] [] 0)
      (VoiceNotification.mk "5" "reminder" "Water" "" "Drink")
      (by decide) (by decide)).1⟩

/-- C10: a pending voice notification whose spoken-message and
full-message fields are both empty/absent is silently skipped: the
processing step is the identity (nothing spoken, logged or marked
delivered), a whole check treats it as if only counted — its
`pending_count` contribution is 1 and the rest of the outcome,
`played_count` included, matches the check without it — and it stays
undelivered locally, so the next cycle re-examines it. -/
theorem C10_voice_empty_skipped (n : VoiceNotification)
    (hs : n.spoken_message = "") (hf : n.full_message = "") :
    (∀ (b : Bool) (st : VoiceState), voiceStep b st n = st)
    ∧ (∀ (b : Bool) (log0 : List LogEntry) (pre suf : List VoiceNotification),
        (VoiceMonitor.check b log0 (pre ++ n :: suf)).state
            = (VoiceMonitor.check b log0 (pre ++ suf)).state
        ∧ (VoiceMonitor.check b log0 (pre ++ n :: suf)).pending_count
            = (VoiceMonitor.check b log0 (pre ++ suf)).pending_count + 1)
    ∧ (∀ (b : Bool) (log0 : List LogEntry) (pre suf : List VoiceNotification),
        StateDB.was_notification_delivered log0 n.id = false →
        (∀ m ∈ pre ++ suf, m.id ≠ n.id) →
        StateDB.was_notification_delivered
          (VoiceMonitor.check b log0 (pre ++ n :: suf)).state.log n.id = false) := by
  have hstep : ∀ (b : Bool) (st : VoiceState), voiceStep b st n = st := by
    intro b st
    simp [voiceStep, voiceMessage, hs, hf]
  have hstate : ∀ (b : Bool) (log0 : List LogEntry)
      (pre suf : List VoiceNotification),
      (VoiceMonitor.check b log0 (pre ++ n :: suf)).state
        = (VoiceMonitor.check b log0 (pre ++ suf)).state := by
    intro b log0 pre suf
    simp [VoiceMonitor.check, List.foldl_append, hstep]
  refine ⟨hstep, ?_, ?_⟩
  · intro b log0 pre suf
    refine ⟨hstate b log0 pre suf, ?_⟩
    simp [VoiceMonitor.check]
    omega
  · intro b log0 pre suf h0 hothers
    rw [hstate b log0 pre suf]
    show StateDB.was_notification_delivered
      (List.foldl (voiceStep b) ⟨log0, [], [], 0⟩ (pre ++ suf)).log n.id = false
    rw [voiceFold_log_preserves b (pre ++ suf) ⟨log0, [], [], 0⟩ n.id hothers]
    exact h0

/-- C10 witness: the empty-message notification "9" leaves any state
untouched. -/
theorem C10_witness :
    (VoiceNotification.mk "9" "task" "T" "" "").spoken_message = ""
    ∧ (VoiceNotification.mk "9" "task" "T" "" "").full_message = ""
    ∧ voiceStep true (VoiceState.mk [] [] [] 0)
        (VoiceNotification.mk "9" "task" "T" "" "")
      = VoiceState.mk [] [] [] 0 :=
  ⟨rfl, rfl,
   (C10_voice_empty_skipped (VoiceNotification.mk "9" "task" "T" "" "") rfl rfl).1
     true (VoiceState.mk [] [] [] 0)⟩

theorem calendar_check_eq (nw : Int) (ls : Option String) (td : Int)
    (ev : CalendarEvent) (s : Int) (hsome : ev.start_time = some s) :
    CalendarMonitor.check nw ls td (some ev)
      = if 0 < minutesUntil nw s ∧ minutesUntil nw s ≤ 15 ∧ ls ≠ ev.id then
          ⟨ev.id,
           [⟨"Meeting in " ++ toString (pyInt (minutesUntil nw s)) ++ " minutes",
             ev.title.getD "Upcoming meeting", "high"⟩], td, ev.title⟩
        else ⟨ls, [], td, ev.title⟩ := by
  simp [CalendarMonitor.check, hsome]

/-- C3: the Calendar Monitor notifies for the next event iff
`0 < minutes-until-start ≤ 15` and the event id differs from the
stored last-notified id; it then records the event id. An event whose
start already passed, or a check with no next event, emits nothing.
Consequently polling the same event id again inside the window
notifies zero further times, while a different event id inside the
window notifies again. -/
theorem C3_calendar_window (now : Int) (last : Option String) (today : Int)
    (e : CalendarEvent) (start : Int) (hs : e.start_time = some start) :
    ((CalendarMonitor.check now last today (some e)).notes ≠ []
        ↔ (0 < minutesUntil now start ∧ minutesUntil now start ≤ 15 ∧ last ≠ e.id))
    ∧ ((0 < minutesUntil now start ∧ minutesUntil now start ≤ 15 ∧ last ≠ e.id) →
        (CalendarMonitor.check now last today (some e)).last_notified = e.id
        ∧ (CalendarMonitor.check now last today (some e)).notes
            = [⟨"Meeting in " ++ toString (pyInt (minutesUntil now start))
                  ++ " minutes",
                e.title.getD "Upcoming meeting", "high"⟩])
    ∧ (¬(0 < minutesUntil now start ∧ minutesUntil now start ≤ 15 ∧ last ≠ e.id) →
        CalendarMonitor.check now last today (some e)
          = ⟨last, [], today, e.title⟩)
    ∧ (minutesUntil now start ≤ 0 →
        (CalendarMonitor.check now last today (some e)).notes = [])
    ∧ (∀ (now2 : Int) (last2 : Option String) (today2 : Int),
        CalendarMonitor.check now2 last2 today2 none = ⟨last2, [], today2, none⟩)
    ∧ (∀ now2 : Int, 0 < minutesUntil now2 start → minutesUntil now2 start ≤ 15 →
        (CalendarMonitor.check now2 e.id today (some e)).notes = [])
    ∧ (∀ (e2 : CalendarEvent) (start2 now2 : Int), e2.start_time = some start2 →
        0 < minutesUntil now2 start2 → minutesUntil now2 start2 ≤ 15 →
        e2.id ≠ e.id →
        (CalendarMonitor.check now2 e.id today (some e2)).notes ≠ []) := by
  refine ⟨?_, ?_, ?_, ?_, ?_, ?_, ?_⟩
  · rw [calendar_check_eq now last today e start hs]
    by_cases hcond : 0 < minutesUntil now start ∧ minutesUntil now start ≤ 15
        ∧ last ≠ e.id
    · simp [hcond]
    · simp [hcond]
  · intro hcond
    rw [calendar_check_eq now last today e start hs]
    simp [hcond]
  · intro hcond
    rw [calendar_check_eq now last today e start hs]
    simp [hcond]
  · intro hle
    rw [calendar_check_eq now last today e start hs]
    have hno : ¬(0 < minutesUntil now start ∧ minutesUntil now start ≤ 15
        ∧ last ≠ e.id) := by
      rintro ⟨h1, -, -⟩
      exact absurd h1 (not_lt.mpr hle)
    simp [hno]
  · intro now2 last2 today2
    simp [CalendarMonitor.check]
  · intro now2 h1 h2
    rw [calendar_check_eq now2 e.id today e start hs]
    have hno : ¬(0 < minutesUntil now2 start ∧ minutesUntil now2 start ≤ 15
        ∧ e.id ≠ e.id) := by
      rintro ⟨-, -, h3⟩
      exact h3 rfl
    simp [hno]
  · intro e2 start2 now2 hs2 h1 h2 hne
    rw [calendar_check_eq now2 e.id today e2 start2 hs2]
    have hcond : 0 < minutesUntil now2 start2 ∧ minutesUntil now2 start2 ≤ 15
        ∧ e.id ≠ e2.id := ⟨h1, h2, Ne.symm hne⟩
    simp [hcond]

/-- C3 witness: event "ev1" starting 840 seconds (14 minutes) from a
clock at 0, with no previously notified id. -/
theorem C3_witness :
    (CalendarEvent.mk (some "ev1") (some "Standup") (some 840)).start_time
        = some 840
    ∧ (0 < minutesUntil 0 840 ∧ minutesUntil 0 840 ≤ 15
        ∧ (none : Option String) ≠ some "ev1")
    ∧ ((CalendarMonitor.check 0 none 2
          (some (CalendarEvent.mk (some "ev1") (some "Standup") (some 840)))
        ).last_notified = some "ev1"
      ∧ (CalendarMonitor.check 0 none 2
          (some (CalendarEvent.mk (some "ev1") (some "Standup") (some 840)))
        ).notes
          = [⟨"Meeting in " ++ toString (pyInt (minutesUntil 0 840)) ++ " minutes",
              (some "Standup").getD "Upcoming meeting", "high"⟩]) := by
  have hwin : 0 < minutesUntil 0 840 ∧ minutesUntil 0 840 ≤ 15
      ∧ (none : Option String) ≠ some "ev1" := by
    refine ⟨?_, ?_, by simp⟩ <;> norm_num [minutesUntil]
  exact ⟨rfl, hwin,
    (C3_calendar_window 0 none 2
      (CalendarEvent.mk (some "ev1") (some "Standup") (some 840)) 840 rfl).2.1 hwin⟩

theorem emailCheck_allOk (sess : EmailSession) (emails : List Email)
    (total : Int) :
    EmailMonitor.check sess emails total
      = ⟨⟨some total, some (currentEmailIds emails)⟩,
         ((emails.filter (fun e =>
            ((currentEmailIds emails).filter
              (fun i => !((sess.email_high_priority.getD []).contains i))
              ).contains e.id)).take 3).map noteOfEmail,
         .summary total emails.length
           ((currentEmailIds emails).filter
             (fun i => !((sess.email_high_priority.getD []).contains i))).length⟩ :=
  rfl

theorem newEmails_filter_eq (prev : List String) (emails : List Email) :
    emails.filter (fun e =>
        ((currentEmailIds emails).filter (fun i => !prev.contains i)).contains e.id)
      = emails.filter (fun e => !prev.contains e.id) := by
  apply List.filter_congr
  intro e he
  have hid : e.id ∈ currentEmailIds emails := by
    simp only [currentEmailIds, List.mem_dedup, List.mem_map]
    exact ⟨e, he, rfl⟩
  by_cases hp : e.id ∈ prev <;>
    simp [List.elem_iff, List.mem_filter, hid, hp]

theorem currentEmailIds_nodup_eq (emails : List Email)
    (h : (emails.map (fun e => e.id)).Nodup) :
    currentEmailIds emails = emails.map (fun e => e.id) :=
  List.dedup_eq_self.mpr h

/-- C4: in one Email Monitor check whose fetched emails have pairwise
distinct ids, with n of them newly seen (id absent from the previous
`email_high_priority` snapshot), exactly `min n 3` notifications are
emitted while the returned summary's `new_high_priority` count
reports n. -/
theorem C4_email_cap (sess : EmailSession) (emails : List Email) (total : Int)
    (hnodup : (emails.map (fun e => e.id)).Nodup) :
    (EmailMonitor.check sess emails total).notes.length
        = min (emails.filter
            (fun e => !((sess.email_high_priority.getD []).contains e.id))).length 3
    ∧ (EmailMonitor.check sess emails total).result
        = .summary total emails.length
            (emails.filter
              (fun e => !((sess.email_high_priority.getD []).contains e.id))).length := by
  have hlen : ((currentEmailIds emails).filter
        (fun i => !((sess.email_high_priority.getD []).contains i))).length
      = (emails.filter
          (fun e => !((sess.email_high_priority.getD []).contains e.id))).length := by
    rw [currentEmailIds_nodup_eq emails hnodup, List.filter_map]
    simp only [List.length_map]
    rfl
  constructor
  · rw [emailCheck_allOk, newEmails_filter_eq]
    simp [List.length_take, Nat.min_comm]
  · rw [emailCheck_allOk]
    exact congrArg (EmailResult.summary total emails.length) hlen

/-- C4 witness: ten fresh high-priority emails in one cycle on an
empty snapshot. -/
theorem C4_witness :
    (List.map (fun e => e.id)
        ((List.range 10).map
          (fun k => Email.mk (toString k) none none none none))).Nodup
    ∧ ((EmailMonitor.check ⟨none, none⟩
          ((List.range 10).map
            (fun k => Email.mk (toString k) none none none none)) 10).notes.length
        = min (((List.range 10).map
              (fun k => Email.mk (toString k) none none none none)).filter
            (fun e =>
              !((((none : Option (List String))).getD []).contains e.id))).length 3
      ∧ (EmailMonitor.check ⟨none, none⟩
          ((List.range 10).map
            (fun k => Email.mk (toString k) none none none none)) 10).result
          = .summary 10
              (((List.range 10).map
                (fun k => Email.mk (toString k) none none none none)).length)
              ((((List.range 10).map
                (fun k => Email.mk (toString k) none none none none)).filter
                (fun e =>
                  !((((none : Option (List String))).getD []).contains e.id))).length)) :=
  ⟨by decide,
   C4_email_cap ⟨none, none⟩
     ((List.range 10).map (fun k => Email.mk (toString k) none none none none)) 10
     (by decide)⟩

/-- C7 counterexample: a new high-priority email from "Alice" yields a
notification whose title is "New email from Alice", not the bare
sender name "Alice" the claim requires. -/
theorem C7_counterexample :
    (EmailMonitor.check ⟨none, none⟩
        [⟨"e1", some "Lunch?", some "Alice", some "a@x", some "high"⟩] 1).notes
      = [⟨"New email from Alice", "Lunch?", "high"⟩]
    ∧ ("New email from Alice" : String) ≠ "Alice" := by
  decide

/-- C7 (amended): every notification the Email Monitor emits comes
from a fetched email absent from the previous high-priority snapshot,
and its title is **"New email from " followed by** the sender name
(the `from_name` field, falling back to `from_email`, then to
"Unknown"), its body is the subject (defaulting to "No subject")
truncated to 100 characters, and its priority is the email's
classified priority with "medium" substituted when absent, null or
empty. -/
theorem C7_email_note_fields (sess : EmailSession) (emails : List Email)
    (total : Int) (note : Note)
    (hmem : note ∈ (EmailMonitor.check sess emails total).notes) :
    ∃ e ∈ emails,
      (sess.email_high_priority.getD []).contains e.id = false
      ∧ note.title = "New email from " ++ senderName e
      ∧ note.message = (emailSubject e).take 100
      ∧ note.priority = emailPriority e := by
  rw [emailCheck_allOk, newEmails_filter_eq] at hmem
  simp only [List.mem_map] at hmem
  obtain ⟨e, htake, hnote⟩ := hmem
  subst hnote
  have hfil : e ∈ emails.filter
      (fun e => !((sess.email_high_priority.getD []).contains e.id)) :=
    List.take_subset 3 _ htake
  rw [List.mem_filter] at hfil
  exact ⟨e, hfil.1, by simpa using hfil.2, by simp [noteOfEmail],
    by simp [noteOfEmail], by simp [noteOfEmail]⟩

/-- C7 witness: the "Alice" email's notification matches the amended
field description. -/
theorem C7_witness :
    (⟨"New email from Alice", "Lunch?", "high"⟩ : Note)
        ∈ (EmailMonitor.check ⟨none, none⟩
            [⟨"e1", some "Lunch?", some "Alice", some "a@x", some "high"⟩] 1).notes
    ∧ ∃ e ∈ [(⟨"e1", some "Lunch?", some "Alice", some "a@x", some "high"⟩ : Email)],
        (((none : Option (List String))).getD []).contains e.id = false
        ∧ ("New email from Alice" : String) = "New email from " ++ senderName e
        ∧ ("Lunch?" : String) = (emailSubject e).take 100
        ∧ ("high" : String) = emailPriority e :=
  ⟨by decide,
   C7_email_note_fields ⟨none, none⟩
     [⟨"e1", some "Lunch?", some "Alice", some "a@x", some "high"⟩] 1
     ⟨"New email from Alice", "Lunch?", "high"⟩
     (by decide)⟩

theorem emailCheckFallible_sess (env : EmailEnv) (sess : EmailSession)
    (emails : List Email) (total : Int) :
    (emailCheckFallible env sess emails total).sess
      = if env.fetchOk = false ∨ env.write1Ok = false then sess
        else if env.write2Ok = false then ⟨some total, sess.email_high_priority⟩
        else ⟨some total, some (currentEmailIds emails)⟩ := by
  rcases env with ⟨f, w1, w2, nf⟩
  cases f
  · simp [emailCheckFallible]
  · cases w1
    · simp [emailCheckFallible]
    · cases w2
      · simp [emailCheckFallible]
      · cases nf with
        | none => simp [emailCheckFallible]
        | some k =>
          simp only [emailCheckFallible, Bool.not_true, Bool.not_false]
          simp only [Bool.false_eq_true, or_self, if_false]
          split <;> rfl

/-- C9 counterexample: an email check that fails at the second session
write (the `email_high_priority` upsert) returns an error result but
leaves `email_unread_count` already updated to the new total while
`email_high_priority` keeps its pre-check value — a partial snapshot
write, refuting the claim that a failed check leaves every key at its
pre-check value. -/
theorem C9_counterexample :
    (emailCheckFallible ⟨true, true, false, none⟩ ⟨some 5, some ["a"]⟩
        [⟨"b", none, none, none, none⟩] 7).result.isErr = true
    ∧ (emailCheckFallible ⟨true, true, false, none⟩ ⟨some 5, some ["a"]⟩
        [⟨"b", none, none, none, none⟩] 7).sess
        ≠ ⟨some 5, some ["a"]⟩
    ∧ (emailCheckFallible ⟨true, true, false, none⟩ ⟨some 5, some ["a"]⟩
        [⟨"b", none, none, none, none⟩] 7).sess.email_unread_count = some 7
    ∧ (emailCheckFallible ⟨true, true, false, none⟩ ⟨some 5, some ["a"]⟩
        [⟨"b", none, none, none, none⟩] 7).sess.email_high_priority
        = some ["a"] := by
  decide

/-- C9 (amended): a failed Email Monitor check leaves each of the two
session keys either at its pre-check value or at its new snapshot
value, applied strictly in source order (`email_unread_count` first):
a failure before the first write leaves the whole snapshot unchanged,
but a storage failure between the two separately-committed writes
leaves `email_unread_count` updated while `email_high_priority` is
stale, and a failure after both writes (e.g. in the notifier) leaves
the full new snapshot. -/
theorem C9_email_session_on_error (env : EmailEnv) (sess : EmailSession)
    (emails : List Email) (total : Int)
    (_hE : (emailCheckFallible env sess emails total).result.isErr = true) :
    ((emailCheckFallible env sess emails total).sess = sess
      ∨ (emailCheckFallible env sess emails total).sess
          = ⟨some total, sess.email_high_priority⟩
      ∨ (emailCheckFallible env sess emails total).sess
          = ⟨some total, some (currentEmailIds emails)⟩)
    ∧ (env.fetchOk = true → env.write1Ok = true → env.write2Ok = false →
        (emailCheckFallible env sess emails total).sess
          = ⟨some total, sess.email_high_priority⟩)
    ∧ (env.fetchOk = false ∨ env.write1Ok = false →
        (emailCheckFallible env sess emails total).sess = sess) := by
  refine ⟨?_, ?_, ?_⟩
  · rw [emailCheckFallible_sess]
    split
    · exact Or.inl rfl
    · split
      · exact Or.inr (Or.inl rfl)
      · exact Or.inr (Or.inr rfl)
  · intro h1 h2 h3
    rw [emailCheckFallible_sess]
    simp [h1, h2, h3]
  · intro h
    rw [emailCheckFallible_sess]
    simp only [if_pos h]

/-- C9 witness: the write2-failure scenario instantiating the amended
theorem's middle conjunct. -/
theorem C9_witness :
    (emailCheckFallible ⟨true, true, false, none⟩ ⟨some 5, some ["a"]⟩
        [⟨"b", none, none, none, none⟩] 7).result.isErr = true
    ∧ (emailCheckFallible ⟨true, true, false, none⟩ ⟨some 5, some ["a"]⟩
        [⟨"b", none, none, none, none⟩] 7).sess
      = ⟨some 7, (⟨some 5, some ["a"]⟩ : EmailSession).email_high_priority⟩ :=
  ⟨by decide,
   (C9_email_session_on_error ⟨true, true, false, none⟩ ⟨some 5, some ["a"]⟩
      [⟨"b", none, none, none, none⟩] 7 (by decide)).2.1 rfl rfl rfl⟩

theorem newOverdue_filter_eq (prev : List String) (tasks : List TaskItem) :
    (tasks.filter (fun t => t.is_overdue)).filter (fun t =>
        (((tasks.filter (fun t => t.is_overdue)).map (fun t => t.id)).dedup.filter
          (fun i => !prev.contains i)).contains t.id)
      = (tasks.filter (fun t => t.is_overdue)).filter
          (fun t => !prev.contains t.id) := by
  apply List.filter_congr
  intro t ht
  have hid : t.id ∈ ((tasks.filter (fun t => t.is_overdue)).map
      (fun t => t.id)).dedup := by
    simp only [List.mem_dedup, List.mem_map]
    exact ⟨t, ht, rfl⟩
  by_cases hp : t.id ∈ prev <;>
    simp [List.elem_iff, List.mem_filter, hid, hp]

/-- C5 counterexample: task 42 is first seen overdue and notified
(cycle A), drops out of the overdue list (cycle B, stored set becomes
empty), then re-enters together with three other newly overdue tasks
listed before it (cycle C): only the first three are notified, so 42
re-entered the overdue list but is **not** notified again, refuting
the claim as stated. -/
theorem C5_counterexample :
    (TaskMonitor.check [] [⟨"42", some "Fix bug", none, true⟩] 1).notes
        = [⟨"Task overdue", "Fix bug", "high"⟩]
    ∧ (TaskMonitor.check [] [⟨"42", some "Fix bug", none, true⟩] 1).task_overdue_ids
        = ["42"]
    ∧ (TaskMonitor.check ["42"] [] 0).task_overdue_ids = []
    ∧ (TaskMonitor.check []
        [⟨"1", some "A", none, true⟩, ⟨"2", some "B", none, true⟩,
         ⟨"3", some "C", none, true⟩, ⟨"42", some "Fix bug", none, true⟩] 4).notes
        = [⟨"Task overdue", "A", "high"⟩, ⟨"Task overdue", "B", "high"⟩,
           ⟨"Task overdue", "C", "high"⟩]
    ∧ (⟨"Task overdue", "Fix bug", "high"⟩ : Note)
        ∉ (TaskMonitor.check []
            [⟨"1", some "A", none, true⟩, ⟨"2", some "B", none, true⟩,
             ⟨"3", some "C", none, true⟩, ⟨"42", some "Fix bug", none, true⟩] 4).notes := by
  decide

/-- C5 (amended): the Task Monitor notifies only for tasks flagged
overdue whose id is not in the previously persisted overdue-id set —
and among those only the first 3 in fetch order (the per-cycle
notification cap) — and replaces that set wholesale with the currently
overdue ids; a task still overdue on the next cycle triggers no new
notification (its id is in the stored set), a task that leaves the
overdue list and later re-enters notifies again provided it is among
the first 3 newly overdue of that cycle, and due-today (non-overdue)
tasks never individually trigger a notification, affecting only the
returned counts. -/
theorem C5_task_overdue_dedup (prev : List String) (tasks : List TaskItem)
    (total : Int) :
    (TaskMonitor.check prev tasks total).notes
        = (((tasks.filter (fun t => t.is_overdue)).filter
              (fun t => !prev.contains t.id)).take 3).map noteOfTask
    ∧ (TaskMonitor.check prev tasks total).task_overdue_ids
        = ((tasks.filter (fun t => t.is_overdue)).map (fun t => t.id)).dedup
    ∧ (∀ t ∈ tasks, t.is_overdue = true →
        t.id ∈ (TaskMonitor.check prev tasks total).task_overdue_ids)
    ∧ (TaskMonitor.check prev tasks total).new_overdue
        = (((tasks.filter (fun t => t.is_overdue)).map (fun t => t.id)).dedup.filter
            (fun i => !prev.contains i)).length
    ∧ (TaskMonitor.check prev tasks total).due_today_count
        = (tasks.filter (fun t => !t.is_overdue)).length := by
  refine ⟨?_, rfl, ?_, rfl, rfl⟩
  · show (((tasks.filter (fun t => t.is_overdue)).filter (fun t =>
        (((tasks.filter (fun t => t.is_overdue)).map (fun t => t.id)).dedup.filter
          (fun i => !prev.contains i)).contains t.id)).take 3).map noteOfTask = _
    rw [newOverdue_filter_eq]
  · intro t ht hov
    show t.id ∈ ((tasks.filter (fun t => t.is_overdue)).map (fun t => t.id)).dedup
    simp only [List.mem_dedup, List.mem_map]
    exact ⟨t, List.mem_filter.mpr ⟨ht, hov⟩, rfl⟩

/-- C5 witness: a task re-entering the overdue set within the cap is
notified again and recorded. -/
theorem C5_witness :
    (⟨"42", some "Fix bug", none, true⟩ : TaskItem)
        ∈ [(⟨"42", some "Fix bug", none, true⟩ : TaskItem)]
    ∧ (⟨"42", some "Fix bug", none, true⟩ : TaskItem).is_overdue = true
    ∧ (TaskMonitor.check [] [⟨"42", some "Fix bug", none, true⟩] 1).notes
        = ((([(⟨"42", some "Fix bug", none, true⟩ : TaskItem)].filter
              (fun t => t.is_overdue)).filter
              (fun t => !(List.contains [] t.id))).take 3).map noteOfTask
    ∧ "42" ∈ (TaskMonitor.check [] [⟨"42", some "Fix bug", none, true⟩] 1).task_overdue_ids :=
  ⟨by decide, by decide,
   (C5_task_overdue_dedup [] [⟨"42", some "Fix bug", none, true⟩] 1).1,
   (C5_task_overdue_dedup [] [⟨"42", some "Fix bug", none, true⟩] 1).2.2.1
     ⟨"42", some "Fix bug", none, true⟩ (by decide) rfl⟩

/-- C6: exhibit of the due-scan bug. A local reminder stored by
`add_local_reminder` gets the Python `isoformat()` TEXT
"2025-06-15T10:00:00" in `due_at`, while the query compares it against
SQLite's `datetime('now')` TEXT "2025-06-15 10:01:00". The reminder is
chronologically due (one minute past), not completed and not
notified, yet `get_due_reminders` returns nothing, because at the
eleventh character the byte 'T' (0x54) exceeds ' ' (0x20), making the
stored string compare greater than "now" under BINARY collation. With
a consistently formatted probe ("2025-06-15T10:01:00") the same row is
returned, and after `mark_reminder_notified` it is excluded again —
the filter logic is right and only the timestamp formats disagree. -/
theorem C6_due_scan_misses_same_day :
    DateTime.leChron ⟨2025, 6, 15, 10, 0, 0⟩ ⟨2025, 6, 15, 10, 1, 0⟩ = true
    ∧ StateDB.add_local_reminder [] 1 "stretch" ⟨2025, 6, 15, 10, 0, 0⟩ ""
        "medium" none
      = [⟨1, none, "stretch", "", "2025-06-15T10:00:00", "medium", false, false⟩]
    ∧ DateTime.sqliteText ⟨2025, 6, 15, 10, 1, 0⟩ = "2025-06-15 10:01:00"
    ∧ StateDB.get_due_reminders
        [⟨1, none, "stretch", "", "2025-06-15T10:00:00", "medium", false, false⟩]
        "2025-06-15 10:01:00"
      = []
    ∧ sqliteLeText "2025-06-15T10:00:00" "2025-06-15 10:01:00" = false
    ∧ StateDB.get_due_reminders
        [⟨1, none, "stretch", "", "2025-06-15T10:00:00", "medium", false, false⟩]
        "2025-06-15T10:01:00"
      = [⟨1, none, "stretch", "", "2025-06-15T10:00:00", "medium", false, false⟩]
    ∧ StateDB.get_due_reminders
        (StateDB.mark_reminder_notified
          [⟨1, none, "stretch", "", "2025-06-15T10:00:00", "medium", false, false⟩] 1)
        "2025-06-15T10:01:00"
      = [] := by
  decide

theorem get_set_sync_state (sync : List (String × String)) (key value : String) :
    StateDB.get_sync_state (StateDB.set_sync_state sync key value) key
      = some value := by
  induction sync with
  | nil => simp [StateDB.set_sync_state, StateDB.get_sync_state]
  | cons p rest ih =>
    by_cases h : (p.1 == key) = true
    · simp [StateDB.set_sync_state, h, StateDB.get_sync_state]
    · simp only [StateDB.set_sync_state, h, Bool.false_eq_true, if_false]
      simpa [StateDB.get_sync_state, List.find?_cons, h] using ih

/-- C8 counterexample: a run whose `check()` returns the
`{"error": ...}` dict (the way every built-in monitor reports a failed
check) still writes `last_sync_email`, overwriting the previous
timestamp — refuting the claim that a cycle producing an error result
leaves `last_sync_<monitor>` unchanged. -/
theorem C8_counterexample :
    (BaseMonitor.run [("last_sync_email", "2025-01-01T00:00:00")] "email"
        "2025-06-15T10:00:00" (.returned (.errorResult "boom"))).2
      = .errorResult "boom"
    ∧ StateDB.get_sync_state
        (BaseMonitor.run [("last_sync_email", "2025-01-01T00:00:00")] "email"
          "2025-06-15T10:00:00" (.returned (.errorResult "boom"))).1
        "last_sync_email"
      = some "2025-06-15T10:00:00"
    ∧ ("2025-06-15T10:00:00" : String) ≠ "2025-01-01T00:00:00" := by
  decide

/-- C8 (amended): BaseMonitor.run writes `last_sync_<name>` after
every check that returns — error results included, which is how all
built-in monitors report failures, since each catches its own
exceptions and returns an `{"error": ...}` dict — and skips the write
only when `check()` raises past the monitor boundary. -/
theorem C8_last_sync_after_run (sync : List (String × String))
    (name nowIso : String) :
    (∀ r : CheckResult,
        (BaseMonitor.run sync name nowIso (.returned r)).1
          = StateDB.set_last_sync sync name nowIso
        ∧ StateDB.get_sync_state (BaseMonitor.run sync name nowIso (.returned r)).1
            ("last_sync_" ++ name) = some nowIso
        ∧ (BaseMonitor.run sync name nowIso (.returned r)).2 = r)
    ∧ (∀ msg : String,
        (BaseMonitor.run sync name nowIso (.raised msg)).1 = sync) := by
  refine ⟨fun r => ⟨rfl, ?_, rfl⟩, fun msg => rfl⟩
  show StateDB.get_sync_state
    (StateDB.set_sync_state sync ("last_sync_" ++ name) nowIso)
    ("last_sync_" ++ name) = some nowIso
  exact get_set_sync_state sync ("last_sync_" ++ name) nowIso

/-- C8 witness: the amended theorem applied to the error-result run of
the counterexample scenario. -/
theorem C8_witness :
    (BaseMonitor.run [("last_sync_email", "2025-01-01T00:00:00")] "email"
        "2025-06-15T10:00:00" (.returned (.errorResult "boom"))).1
      = StateDB.set_last_sync [("last_sync_email", "2025-01-01T00:00:00")] "email"
          "2025-06-15T10:00:00"
    ∧ StateDB.get_sync_state
        (BaseMonitor.run [("last_sync_email", "2025-01-01T00:00:00")] "email"
          "2025-06-15T10:00:00" (.returned (.errorResult "boom"))).1
        ("last_sync_" ++ "email")
      = some "2025-06-15T10:00:00"
    ∧ (BaseMonitor.run [("last_sync_email", "2025-01-01T00:00:00")] "email"
        "2025-06-15T10:00:00" (.returned (.errorResult "boom"))).2
      = .errorResult "boom" :=
  (C8_last_sync_after_run [("last_sync_email", "2025-01-01T00:00:00")] "email"
    "2025-06-15T10:00:00").1 (.errorResult "boom")
